import Mathlib

/-
Shallow embedding of `src/server.js` (Express chatbot gateway).

The model capability (Gemini chat session) and the network are external
collaborators; they are modelled as oracles supplied to the handler:
the chat session's two possible replies, the current clock string, and
the weather fetch.  The handler itself is translated directly from the
source.  Besides the HTTP response, the embedded `/chat` handler returns
the trace of tool invocations actually performed (the list of
`FunctionCall`s dispatched through `availableFunctions`), so that claims
about whether a tool was or was not invoked are statable.
-/

namespace Server

/-- A scalar JSON field value; every tool payload the source builds is a
flat object of strings and numbers. -/
inductive Scalar where
  | str : String → Scalar
  | num : Int → Scalar
  deriving Repr, DecidableEq

/-- A tool result payload: a flat JSON object, as built by
`getCurrentTime` and `getWeather` in the source. -/
abbrev ToolPayload := List (String × Scalar)

/-- A tool-call request produced by the model: `{name, args}`.
Arguments are modelled as a string-valued record, as consumed by
`getWeather` (`args.location`). -/
structure FunctionCall where
  name : String
  args : List (String × String)
  deriving Repr, DecidableEq

/-- One part of a Gemini `Content`: text, a function call, or a
function response (`{functionResponse: {name, response}}` as built at
lines 126-131 of the source). -/
inductive Part where
  | text : String → Part
  | functionCall : FunctionCall → Part
  | functionResponse : String → ToolPayload → Part
  deriving Repr, DecidableEq

/-- A history entry: `{role, parts}`. -/
structure Content where
  role : String
  parts : List Part
  deriving Repr, DecidableEq

/-- Embeds `response.functionCalls()`: the function-call parts of a reply. -/
def functionCallsOf (c : Content) : List FunctionCall :=
  c.parts.filterMap fun p =>
    match p with
    | .functionCall fc => some fc
    | _ => none

/-- Embeds `response.text()`: concatenation of the text parts of a reply. -/
def textOf (c : Content) : String :=
  String.join (c.parts.filterMap fun p =>
    match p with
    | .text s => some s
    | _ => none)

/-- The fields of the OpenWeather response the source reads
(`res.data.name`, `res.data.main.temp`, `res.data.weather[0].description`). -/
structure WeatherData where
  name : String
  temp : Int
  description : String
  deriving Repr, DecidableEq

/-- External collaborators of the tool functions: the clock read by
`getCurrentTime` and the network fetch performed by `getWeather`
(keyed by the location string interpolated into the request URL;
a JavaScript `undefined` interpolates as the string `"undefined"`).
`Except.error msg` models a rejected `axios.get` with `err.message = msg`. -/
structure Env where
  now : String
  fetchWeather : String → Except String WeatherData

/-- Embeds `getCurrentTime()` from the source: `{ currentTime: <locale string> }`. -/
def getCurrentTime (env : Env) : ToolPayload :=
  [("currentTime", .str env.now)]

/-- Embeds `getWeather(args)` from the source: reads `args.location` (the string
`"undefined"` when absent), fetches, and catches any fetch error into
`{ error: 'Erro ao obter o clima: ' + err.message }`. -/
def getWeather (env : Env) (args : List (String × String)) : ToolPayload :=
  let location := (args.lookup "location").getD "undefined"
  match env.fetchWeather location with
  | .ok d =>
      [("location", .str d.name),
       ("temperature", .num d.temp),
       ("description", .str d.description)]
  | .error msg =>
      [("error", .str ("Erro ao obter o clima: " ++ msg))]

/-- The `availableFunctions` dispatch table of the source: name-keyed
lookup; an unknown name yields `none` (in JavaScript, `undefined`,
so that calling it throws a `TypeError`). -/
def availableFunctions (env : Env) : String → Option (List (String × String) → ToolPayload)
  | "getCurrentTime" => some fun _ => getCurrentTime env
  | "getWeather" => some fun args => getWeather env args
  | _ => none

/-- The opaque model capability for one `/chat` request: the reply to
`chat.sendMessage(message)` and the reply to the follow-up
`chat.sendMessage([{functionResponse: ...}])`.  `Except.error ()` models
the call rejecting (`ModelUnavailableError`), which the source only
observes through its `catch`. -/
structure ModelOracle where
  reply1 : Except Unit Content
  reply2 : Except Unit Content

/-- The JSON body and status the `/chat` handler sends:
`{resposta, historico}`. -/
structure ChatResponse where
  status : Nat
  resposta : String
  historico : List Content
  deriving Repr, DecidableEq

/-- The user message as appended to the chat history by the session. -/
def userContent (message : String) : Content :=
  ⟨"user", [.text message]⟩

/-- The function-response message sent back (and appended) after a tool
invocation: `{functionResponse: {name, response}}` under the function role. -/
def functionResponseContent (name : String) (response : ToolPayload) : Content :=
  ⟨"function", [.functionResponse name response]⟩

/-- The catch-block response of the `/chat` handler (lines 144-147):
status 500, `{resposta: 'Erro interno no servidor.', historico: []}`. -/
def internalError : ChatResponse :=
  ⟨500, "Erro interno no servidor.", []⟩

/-- The `/chat` handler (source lines 83-148), as a function of the
external oracles.  Returns the HTTP response together with the trace of
tool invocations performed via `availableFunctions`.

* History starts from `historico || []`; the session appends the user
  message and every model reply in order.
* If the first reply carries function calls, only `functionCalls()[0]`
  is considered; `availableFunctions[functionName](args)` throws when the
  name is not in the table, and the request-level `catch` then answers
  with `internalError`.
* Otherwise the tool result is sent back and the second reply's text is
  returned verbatim, with `chat.getHistory()` as the history.
* A rejection of either `sendMessage` is caught the same way. -/
def chatHandler (env : Env) (oracle : ModelOracle) (message : String)
    (historico : Option (List Content)) : ChatResponse × List FunctionCall :=
  let hist0 := historico.getD []
  match oracle.reply1 with
  | .error _ => (internalError, [])
  | .ok reply1 =>
    let hist1 := hist0 ++ [userContent message, reply1]
    match functionCallsOf reply1 with
    | [] => (⟨200, textOf reply1, hist1⟩, [])
    | funcCall :: _ =>
      match availableFunctions env funcCall.name with
      | none => (internalError, [])
      | some f =>
        let result := f funcCall.args
        match oracle.reply2 with
        | .error _ => (internalError, [funcCall])
        | .ok reply2 =>
          (⟨200, textOf reply2,
             hist1 ++ [functionResponseContent funcCall.name result, reply2]⟩,
           [funcCall])

/-- Truthiness of an optional JavaScript string field: absent
(`undefined`) and the empty string are falsy. -/
def strFalsy : Option String → Bool
  | none => true
  | some s => s == ""

/-- A history entry of the auxiliary endpoint: `{from, text}`.
(`from` is a reserved word in Lean, hence `msgFrom`.) -/
structure SimpleMsg where
  msgFrom : String
  text : String
  deriving Repr, DecidableEq

/-- Response of `/api/chat/processar-mensagem`: a 400 validation error
or a 200 `{resposta, historico}` body. -/
inductive ProcResult where
  | badRequest : String → ProcResult
  | ok : String → List SimpleMsg → ProcResult
  deriving Repr, DecidableEq

/-- The `/api/chat/processar-mensagem` handler (source lines 151-176):
rejects a falsy `mensagem` with 400, otherwise builds the canned reply
and appends the user and bot entries to `historico || []`. -/
def processarMensagem (mensagem : Option String)
    (historico : Option (List SimpleMsg)) : ProcResult :=
  if strFalsy mensagem then
    .badRequest "Mensagem é obrigatória"
  else
    let m := mensagem.getD ""
    let respostaBot := "Você disse: \"" ++ m ++ "\". Resposta automática temporária."
    .ok respostaBot
      ((historico.getD []) ++ [⟨"user", m⟩, ⟨"bot", respostaBot⟩])

/-- Request body of `/api/chat/salvar-historico`; every field may be
absent.  The messages themselves are opaque to this endpoint. -/
structure SalvarBody where
  sessionId : Option String
  userId : Option String
  botId : Option String
  startTime : Option String
  endTime : Option String
  messages : Option (List String)
  deriving Repr, DecidableEq

/-- The session record inserted into `sessoesChat` (source lines
190-198).  `startTime`/`endTime` are stored as the `Date`-wrapped raw
inputs, modelled as the raw inputs. -/
structure Sessao where
  sessionId : String
  userId : String
  botId : String
  startTime : Option String
  endTime : Option String
  messages : List String
  deriving Repr, DecidableEq

/-- Response of `/api/chat/salvar-historico`: 500 when the database
handle is absent, 400 on incomplete data, or 201 after inserting the
record (`saved` carries the inserted record and the echoed session id). -/
inductive SalvarResult where
  | noDb : String → SalvarResult
  | invalid : String → SalvarResult
  | saved : Sessao → String → SalvarResult
  deriving Repr, DecidableEq

/-- JavaScript `messages?.length` coerced to a number: 0 when the list
is absent. -/
def messagesCount : Option (List String) → Nat
  | none => 0
  | some ms => ms.length

/-- The `/api/chat/salvar-historico` handler (source lines 179-207).
`dbHistoria` says whether the database handle was initialized.  The
guard is `!sessionId || !botId || !messages?.length`; on success the
inserted record defaults `userId` to `'anonimo'` via `userId || 'anonimo'`. -/
def salvarHistorico (dbHistoria : Bool) (body : SalvarBody) : SalvarResult :=
  if !dbHistoria then
    .noDb "Sem conexão com o banco de histórico."
  else if strFalsy body.sessionId || strFalsy body.botId
      || messagesCount body.messages == 0 then
    .invalid "Dados incompletos."
  else
    .saved
      { sessionId := body.sessionId.getD ""
        userId := if strFalsy body.userId then "anonimo" else body.userId.getD ""
        botId := body.botId.getD ""
        startTime := body.startTime
        endTime := body.endTime
        messages := body.messages.getD [] }
      (body.sessionId.getD "")

/-- The record inserted into storage by a persistence call, when any. -/
def storedRecord : SalvarResult → Option Sessao
  | .saved r _ => some r
  | _ => none

/- Concrete test fixtures. -/

/-- Test environment where every weather fetch rejects. -/
def envDown : Env :=
  ⟨"01/01/2025, 12:00:00", fun _ => .error "Request failed with status code 404"⟩

/-- Test environment where every weather fetch succeeds. -/
def envUp : Env :=
  ⟨"01/01/2025, 12:00:00", fun loc => .ok ⟨loc, 25, "céu limpo"⟩⟩

/-- A plain-text model reply. -/
def contentOla : Content := ⟨"model", [.text "Olá!"]⟩

/-- A final plain-text reply for the post-tool round. -/
def contentFinal : Content := ⟨"model", [.text "Aqui está o resultado."]⟩

/-- A reply requesting the registered `getWeather` tool with a location. -/
def contentCallWeather : Content :=
  ⟨"model", [.functionCall ⟨"getWeather", [("location", "Recife")]⟩]⟩

/-- A reply requesting `getWeather` without the required `location`. -/
def contentCallWeatherNoLoc : Content :=
  ⟨"model", [.functionCall ⟨"getWeather", []⟩]⟩

/-- A reply requesting the registered `getCurrentTime` tool. -/
def contentCallTime : Content := ⟨"model", [.functionCall ⟨"getCurrentTime", []⟩]⟩

/-- A reply requesting a tool name absent from `availableFunctions`. -/
def contentCallUnknown : Content :=
  ⟨"model", [.functionCall ⟨"somaNumeros", [("a", "2"), ("b", "3")]⟩]⟩

/-- A reply carrying two tool-call requests at once. -/
def contentCallBoth : Content :=
  ⟨"model", [.functionCall ⟨"getCurrentTime", []⟩,
             .functionCall ⟨"getWeather", [("location", "Recife")]⟩]⟩

/-- Oracle answering with plain text. -/
def oracleText : ModelOracle := ⟨.ok contentOla, .ok contentFinal⟩

/-- Oracle whose first call fails (model unavailable). -/
def oracleDown : ModelOracle := ⟨.error (), .error ()⟩

/-- Oracle requesting `getWeather`, then answering text; the second call
would fail if it were ever not reached on tool errors. -/
def oracleWeather : ModelOracle := ⟨.ok contentCallWeather, .ok contentFinal⟩

/-- Oracle requesting `getWeather` without its required argument. -/
def oracleWeatherNoLoc : ModelOracle := ⟨.ok contentCallWeatherNoLoc, .ok contentFinal⟩

/-- Oracle requesting an unregistered tool. -/
def oracleUnknown : ModelOracle := ⟨.ok contentCallUnknown, .ok contentFinal⟩

/-- Oracle requesting `getCurrentTime`, whose second reply requests yet
another tool instead of answering with text. -/
def oracleChained : ModelOracle := ⟨.ok contentCallTime, .ok contentCallWeather⟩

/-- Oracle requesting a tool but failing at the second model call. -/
def oracleSecondDown : ModelOracle := ⟨.ok contentCallTime, .error ()⟩

/-- Oracle whose first reply carries two tool-call requests. -/
def oracleBoth : ModelOracle := ⟨.ok contentCallBoth, .ok contentFinal⟩

/-- C5: for every chat request whose model reply is plain text (no
tool-call request), the handler answers 200 with that text, and the
returned history is the input history extended by exactly the user
message and the model reply, so its length is the input length plus 2
and the input history is preserved unchanged, in order, as a prefix. -/
theorem chat_plain_text_reply (env : Env) (o : ModelOracle) (m : String)
    (h : Option (List Content)) (r1 : Content)
    (h1 : o.reply1 = .ok r1) (h2 : functionCallsOf r1 = []) :
    chatHandler env o m h =
      (⟨200, textOf r1, (h.getD []) ++ [userContent m, r1]⟩, []) ∧
    (chatHandler env o m h).fst.historico.length = (h.getD []).length + 2 := by
  have hmain : chatHandler env o m h =
      (⟨200, textOf r1, (h.getD []) ++ [userContent m, r1]⟩, []) := by
    simp only [chatHandler, h1, h2]
  exact ⟨hmain, by rw [hmain]; simp⟩

/-- Witness for C5 at a concrete request with a one-entry prior history. -/
theorem chat_plain_text_reply_witness :
    oracleText.reply1 = .ok contentOla ∧ functionCallsOf contentOla = [] ∧
    (chatHandler envDown oracleText "oi" (some [userContent "antes"]) =
      (⟨200, textOf contentOla, [userContent "antes", userContent "oi", contentOla]⟩, []) ∧
     (chatHandler envDown oracleText "oi" (some [userContent "antes"])).fst.historico.length = 3) := by
  refine ⟨rfl, rfl, ?_⟩
  have h := chat_plain_text_reply envDown oracleText "oi"
    (some [userContent "antes"]) contentOla rfl rfl
  simpa using h

/-- C3: a model-capability failure — at the first call, or at the call
after a tool result — makes the request answer 500 with the generic
message and an empty history, never a partially appended history. -/
theorem chat_model_failure_fails_clean (env : Env) (o : ModelOracle) (m : String)
    (h : Option (List Content)) :
    (o.reply1 = .error () → chatHandler env o m h = (internalError, [])) ∧
    (∀ r1 fc rest f, o.reply1 = .ok r1 → functionCallsOf r1 = fc :: rest →
      availableFunctions env fc.name = some f → o.reply2 = .error () →
      (chatHandler env o m h).fst = internalError) := by
  constructor
  · intro h1
    simp only [chatHandler, h1]
  · intro r1 fc rest f h1 h2 h3 h4
    simp only [chatHandler, h1, h2, h3, h4]

/-- Witness for C3: first-call failure at a concrete request. -/
theorem chat_model_failure_fails_clean_witness :
    oracleDown.reply1 = .error () ∧
    chatHandler envDown oracleDown "oi" (some [userContent "antes"]) = (internalError, []) :=
  ⟨rfl, (chat_model_failure_fails_clean envDown oracleDown "oi"
    (some [userContent "antes"])).1 rfl⟩

/-- C4: when the model reply requests a known tool and the follow-up
model call succeeds, the returned history is the input history extended
by exactly 4 messages — user message, tool-call reply, tool-result
message, final reply — whether the tool invocation succeeds or fails
(the payload `f fc.args` carries the error object in the failure case). -/
theorem chat_tool_roundtrip_appends_four (env : Env) (o : ModelOracle) (m : String)
    (h : Option (List Content)) (r1 r2 : Content) (fc : FunctionCall)
    (rest : List FunctionCall) (f : List (String × String) → ToolPayload)
    (h1 : o.reply1 = .ok r1) (h2 : functionCallsOf r1 = fc :: rest)
    (h3 : availableFunctions env fc.name = some f) (h4 : o.reply2 = .ok r2) :
    (chatHandler env o m h).fst.historico =
      (h.getD []) ++
        [userContent m, r1, functionResponseContent fc.name (f fc.args), r2] ∧
    (chatHandler env o m h).fst.historico.length = (h.getD []).length + 4 := by
  have hmain : (chatHandler env o m h).fst.historico =
      ((h.getD []) ++ [userContent m, r1]) ++
        [functionResponseContent fc.name (f fc.args), r2] := by
    simp only [chatHandler, h1, h2, h3, h4]
  constructor
  · rw [hmain]; simp
  · rw [hmain]; simp

/-- Witness for C4 at a concrete request where the tool fails: the
weather fetch rejects, and the tool-result message carries the error
payload while the history still grows by exactly 4. -/
theorem chat_tool_roundtrip_appends_four_witness :
    oracleWeather.reply1 = .ok contentCallWeather ∧
    functionCallsOf contentCallWeather = [⟨"getWeather", [("location", "Recife")]⟩] ∧
    availableFunctions envDown "getWeather" = some (fun args => getWeather envDown args) ∧
    oracleWeather.reply2 = .ok contentFinal ∧
    ((chatHandler envDown oracleWeather "clima?" none).fst.historico =
      [userContent "clima?", contentCallWeather,
       functionResponseContent "getWeather"
         [("error", .str ("Erro ao obter o clima: " ++ "Request failed with status code 404"))],
       contentFinal] ∧
     (chatHandler envDown oracleWeather "clima?" none).fst.historico.length = 4) := by
  refine ⟨rfl, rfl, rfl, rfl, ?_⟩
  have h := chat_tool_roundtrip_appends_four envDown oracleWeather "clima?" none
    contentCallWeather contentFinal ⟨"getWeather", [("location", "Recife")]⟩ []
    (fun args => getWeather envDown args) rfl rfl rfl rfl
  simpa [getWeather, envDown] using h

/-- C1 counterexample: at a concrete request whose reply asks for the
unregistered tool `somaNumeros`, the handler does NOT produce a
ToolResult with an error payload — the dispatch throws, the request
fails with status 500 and an empty history, and no tool is invoked.
This refutes the claim that such a request never fails. -/
theorem chat_unknown_tool_counterexample :
    (chatHandler envDown oracleUnknown "soma 2 e 3" (some [userContent "antes"])).fst.status = 500 ∧
    (chatHandler envDown oracleUnknown "soma 2 e 3" (some [userContent "antes"])).fst.historico = [] ∧
    (chatHandler envDown oracleUnknown "soma 2 e 3" (some [userContent "antes"])).snd = [] := by
  refine ⟨rfl, rfl, rfl⟩

/-- C1 amended: requesting an unregistered tool name makes the dispatch
`availableFunctions[functionName](args)` throw; the request-level catch
converts this into the generic 500 internal-error response with an
empty history, so the conversation request fails and no tool result is
ever produced. -/
theorem chat_unknown_tool_fails_request (env : Env) (o : ModelOracle) (m : String)
    (h : Option (List Content)) (r1 : Content) (fc : FunctionCall)
    (rest : List FunctionCall)
    (h1 : o.reply1 = .ok r1) (h2 : functionCallsOf r1 = fc :: rest)
    (h3 : availableFunctions env fc.name = none) :
    chatHandler env o m h = (internalError, []) := by
  simp only [chatHandler, h1, h2, h3]

/-- Witness for the amended C1 at the concrete `somaNumeros` request. -/
theorem chat_unknown_tool_fails_request_witness :
    oracleUnknown.reply1 = .ok contentCallUnknown ∧
    functionCallsOf contentCallUnknown = [⟨"somaNumeros", [("a", "2"), ("b", "3")]⟩] ∧
    availableFunctions envDown "somaNumeros" = none ∧
    chatHandler envDown oracleUnknown "soma 2 e 3" none = (internalError, []) :=
  ⟨rfl, rfl, rfl,
   chat_unknown_tool_fails_request envDown oracleUnknown "soma 2 e 3" none
     contentCallUnknown ⟨"somaNumeros", [("a", "2"), ("b", "3")]⟩ [] rfl rfl rfl⟩

/-- C2 counterexample: at a concrete request whose reply asks for
`getWeather` with no `location` argument, the tool IS invoked (it
appears in the dispatch trace) — there is no required-argument check
before invocation — and the tool-result message carries the error
payload produced inside `getWeather` after the fetch on the literal
location string `undefined` rejects. This refutes the claim that a
`getWeather` request lacking `location` is never passed to `getWeather`. -/
theorem chat_no_validation_counterexample :
    (chatHandler envDown oracleWeatherNoLoc "clima?" none).snd = [⟨"getWeather", []⟩] ∧
    (chatHandler envDown oracleWeatherNoLoc "clima?" none).fst.historico =
      [userContent "clima?", contentCallWeatherNoLoc,
       functionResponseContent "getWeather" (getWeather envDown []),
       contentFinal] := by
  refine ⟨rfl, rfl⟩

/-- C2 amended: the executor performs no required-argument validation;
the tool is invoked with the model's arguments as given. A `getWeather`
request lacking `location` is passed to `getWeather`, which interpolates
the string `undefined` into the URL; a fetch failure is caught inside
`getWeather` and mapped to an error payload in the tool-result message. -/
theorem chat_missing_arg_still_invokes (env : Env) (o : ModelOracle) (m : String)
    (h : Option (List Content)) (r1 r2 : Content)
    (args : List (String × String)) (rest : List FunctionCall) (emsg : String)
    (h1 : o.reply1 = .ok r1)
    (h2 : functionCallsOf r1 = ⟨"getWeather", args⟩ :: rest)
    (h3 : args.lookup "location" = none)
    (h4 : o.reply2 = .ok r2)
    (h5 : env.fetchWeather "undefined" = .error emsg) :
    (chatHandler env o m h).snd = [⟨"getWeather", args⟩] ∧
    (chatHandler env o m h).fst.historico =
      (h.getD []) ++
        [userContent m, r1,
         functionResponseContent "getWeather"
           [("error", .str ("Erro ao obter o clima: " ++ emsg))], r2] := by
  have hw : getWeather env args = [("error", .str ("Erro ao obter o clima: " ++ emsg))] := by
    simp only [getWeather, h3, Option.getD, h5]
  have h3' : availableFunctions env (FunctionCall.mk "getWeather" args).name =
      some (fun a => getWeather env a) := rfl
  have hmain := chat_tool_roundtrip_appends_four env o m h r1 r2
    ⟨"getWeather", args⟩ rest (fun a => getWeather env a) h1 h2 h3' h4
  refine ⟨?_, by rw [hmain.1]; simp [hw]⟩
  simp only [chatHandler, h1, h2, h3', h4]

/-- Witness for the amended C2 at the concrete argument-less request. -/
theorem chat_missing_arg_still_invokes_witness :
    oracleWeatherNoLoc.reply1 = .ok contentCallWeatherNoLoc ∧
    functionCallsOf contentCallWeatherNoLoc = [⟨"getWeather", []⟩] ∧
    ([] : List (String × String)).lookup "location" = none ∧
    oracleWeatherNoLoc.reply2 = .ok contentFinal ∧
    envDown.fetchWeather "undefined" = .error "Request failed with status code 404" ∧
    ((chatHandler envDown oracleWeatherNoLoc "clima?" none).snd = [⟨"getWeather", []⟩] ∧
     (chatHandler envDown oracleWeatherNoLoc "clima?" none).fst.historico =
       [userContent "clima?", contentCallWeatherNoLoc,
        functionResponseContent "getWeather"
          [("error", .str ("Erro ao obter o clima: " ++ "Request failed with status code 404"))],
        contentFinal]) := by
  refine ⟨rfl, rfl, rfl, rfl, rfl, ?_⟩
  have h := chat_missing_arg_still_invokes envDown oracleWeatherNoLoc "clima?" none
    contentCallWeatherNoLoc contentFinal [] [] "Request failed with status code 404"
    rfl rfl rfl rfl rfl
  simpa using h

/-- C6: the tool executor is dispatched at most once per chat request,
and after one tool result is sent back the second reply's text is
surfaced verbatim as the final answer regardless of its variant — even
when that reply requests another tool, no second dispatch occurs. -/
theorem chat_at_most_one_dispatch (env : Env) (o : ModelOracle) (m : String)
    (h : Option (List Content)) :
    (chatHandler env o m h).snd.length ≤ 1 ∧
    (∀ r1 fc rest f r2, o.reply1 = .ok r1 → functionCallsOf r1 = fc :: rest →
      availableFunctions env fc.name = some f → o.reply2 = .ok r2 →
      (chatHandler env o m h).fst.resposta = textOf r2 ∧
      (chatHandler env o m h).snd = [fc]) := by
  constructor
  · rcases hr : o.reply1 with u | r1
    · simp [chatHandler, hr]
    · rcases hf : functionCallsOf r1 with _ | ⟨fc, rest⟩
      · simp [chatHandler, hr, hf]
      · rcases ha : availableFunctions env fc.name with _ | f
        · simp [chatHandler, hr, hf, ha]
        · rcases hb : o.reply2 with v | r2
          · simp [chatHandler, hr, hf, ha, hb]
          · simp [chatHandler, hr, hf, ha, hb]
  · intro r1 fc rest f r2 h1 h2 h3 h4
    constructor
    · simp only [chatHandler, h1, h2, h3, h4]
    · simp only [chatHandler, h1, h2, h3, h4]

/-- Witness for C6: the second reply requests another tool, yet its
(empty) text is surfaced and only the first tool was dispatched. -/
theorem chat_at_most_one_dispatch_witness :
    oracleChained.reply1 = .ok contentCallTime ∧
    functionCallsOf contentCallTime = [⟨"getCurrentTime", []⟩] ∧
    availableFunctions envDown "getCurrentTime" = some (fun _ => getCurrentTime envDown) ∧
    oracleChained.reply2 = .ok contentCallWeather ∧
    functionCallsOf contentCallWeather ≠ [] ∧
    ((chatHandler envDown oracleChained "que horas?" none).fst.resposta = textOf contentCallWeather ∧
     (chatHandler envDown oracleChained "que horas?" none).snd = [⟨"getCurrentTime", []⟩]) := by
  refine ⟨rfl, rfl, rfl, rfl, by decide, ?_⟩
  exact (chat_at_most_one_dispatch envDown oracleChained "que horas?" none).2
    contentCallTime ⟨"getCurrentTime", []⟩ [] (fun _ => getCurrentTime envDown)
    contentCallWeather rfl rfl rfl rfl

/-- C8: when the first reply carries more than one tool-call request,
only the first is dispatched — the trace holds exactly that call — and
the history gains a single tool-result message, for the first call only;
the remaining requests receive no tool result. -/
theorem chat_first_call_only (env : Env) (o : ModelOracle) (m : String)
    (h : Option (List Content)) (r1 r2 : Content) (fc : FunctionCall)
    (rest : List FunctionCall) (f : List (String × String) → ToolPayload)
    (h1 : o.reply1 = .ok r1) (h2 : functionCallsOf r1 = fc :: rest)
    (_hrest : rest ≠ [])
    (h3 : availableFunctions env fc.name = some f) (h4 : o.reply2 = .ok r2) :
    (chatHandler env o m h).snd = [fc] ∧
    (chatHandler env o m h).fst.historico =
      (h.getD []) ++
        [userContent m, r1, functionResponseContent fc.name (f fc.args), r2] := by
  constructor
  · simp only [chatHandler, h1, h2, h3, h4]
  · have hmain : (chatHandler env o m h).fst.historico =
        ((h.getD []) ++ [userContent m, r1]) ++
          [functionResponseContent fc.name (f fc.args), r2] := by
      simp only [chatHandler, h1, h2, h3, h4]
    rw [hmain]; simp

/-- Witness for C8: a reply with two tool-call requests dispatches only
`getCurrentTime`, the first of them. -/
theorem chat_first_call_only_witness :
    oracleBoth.reply1 = .ok contentCallBoth ∧
    functionCallsOf contentCallBoth =
      [⟨"getCurrentTime", []⟩, ⟨"getWeather", [("location", "Recife")]⟩] ∧
    ([⟨"getWeather", [("location", "Recife")]⟩] : List FunctionCall) ≠ [] ∧
    availableFunctions envDown "getCurrentTime" = some (fun _ => getCurrentTime envDown) ∧
    oracleBoth.reply2 = .ok contentFinal ∧
    ((chatHandler envDown oracleBoth "tudo" none).snd = [⟨"getCurrentTime", []⟩] ∧
     (chatHandler envDown oracleBoth "tudo" none).fst.historico =
       [userContent "tudo", contentCallBoth,
        functionResponseContent "getCurrentTime" (getCurrentTime envDown),
        contentFinal]) := by
  refine ⟨rfl, rfl, by decide, rfl, rfl, ?_⟩
  have h := chat_first_call_only envDown oracleBoth "tudo" none
    contentCallBoth contentFinal ⟨"getCurrentTime", []⟩
    [⟨"getWeather", [("location", "Recife")]⟩] (fun _ => getCurrentTime envDown)
    rfl rfl (by decide) rfl rfl
  simpa using h

/-- C7: a persistence request with a falsy `sessionId`, a falsy `botId`,
or an absent or empty message list is rejected with the 400 validation
error, and no record is ever inserted into storage for such a body,
whatever the database state. -/
theorem salvar_incomplete_rejected (body : SalvarBody)
    (h : strFalsy body.sessionId = true ∨ strFalsy body.botId = true ∨
      messagesCount body.messages = 0) :
    salvarHistorico true body = .invalid "Dados incompletos." ∧
    ∀ db : Bool, storedRecord (salvarHistorico db body) = none := by
  have hguard : (strFalsy body.sessionId || strFalsy body.botId
      || messagesCount body.messages == 0) = true := by
    rcases h with h | h | h <;> simp [h]
  constructor
  · simp [salvarHistorico, hguard]
  · intro db
    cases db <;> simp [salvarHistorico, storedRecord, hguard]

/-- Witness for C7 at the spec's concrete scenario
`{sessionId: "s1", botId: "b1", messages: []}`. -/
theorem salvar_incomplete_rejected_witness :
    messagesCount (some ([] : List String)) = 0 ∧
    (salvarHistorico true ⟨some "s1", none, some "b1", none, none, some []⟩ =
      .invalid "Dados incompletos." ∧
     ∀ db : Bool,
       storedRecord (salvarHistorico db ⟨some "s1", none, some "b1", none, none, some []⟩) = none) :=
  ⟨rfl, salvar_incomplete_rejected ⟨some "s1", none, some "b1", none, none, some []⟩
    (Or.inr (Or.inr rfl))⟩

/-- C9: a non-empty message makes the auxiliary endpoint answer exactly
the interpolated canned reply and the input history (or `[]` when
absent) extended by the user entry and that bot entry; a missing or
empty message is rejected with the 400 validation error before any
history is built. -/
theorem processar_mensagem_spec (mensagem : Option String)
    (historico : Option (List SimpleMsg)) :
    (∀ m : String, mensagem = some m → m ≠ "" →
      processarMensagem mensagem historico =
        .ok ("Você disse: \"" ++ m ++ "\". Resposta automática temporária.")
          ((historico.getD []) ++
            [⟨"user", m⟩,
             ⟨"bot", "Você disse: \"" ++ m ++ "\". Resposta automática temporária."⟩])) ∧
    (strFalsy mensagem = true →
      processarMensagem mensagem historico = .badRequest "Mensagem é obrigatória") := by
  constructor
  · intro m hm hne
    subst hm
    have hf : strFalsy (some m) = false := by
      simpa [strFalsy] using hne
    simp [processarMensagem, hf]
  · intro hf
    simp [processarMensagem, hf]

/-- Witness for C9 at the concrete message `olá` with no prior history. -/
theorem processar_mensagem_spec_witness :
    (some "olá" = some "olá" ∧ "olá" ≠ "") ∧
    processarMensagem (some "olá") none =
      .ok ("Você disse: \"" ++ "olá" ++ "\". Resposta automática temporária.")
        [⟨"user", "olá"⟩,
         ⟨"bot", "Você disse: \"" ++ "olá" ++ "\". Resposta automática temporária."⟩] := by
  refine ⟨⟨rfl, by decide⟩, ?_⟩
  have h := (processar_mensagem_spec (some "olá") none).1 "olá" rfl (by decide)
  simpa using h

/-- C10: a persistence request that passes validation but lacks a user
identifier (absent or empty `userId`) is not rejected: the inserted
record substitutes the default `anonimo` for the `userId` field. -/
theorem salvar_missing_user_defaults_anonimo (body : SalvarBody)
    (h1 : strFalsy body.sessionId = false) (h2 : strFalsy body.botId = false)
    (h3 : messagesCount body.messages ≠ 0) (h4 : strFalsy body.userId = true) :
    salvarHistorico true body =
      .saved ⟨body.sessionId.getD "", "anonimo", body.botId.getD "",
              body.startTime, body.endTime, body.messages.getD []⟩
        (body.sessionId.getD "") := by
  have hguard : (strFalsy body.sessionId || strFalsy body.botId
      || messagesCount body.messages == 0) = false := by
    simp [h1, h2, h3]
  simp [salvarHistorico, hguard, h4]

/-- Witness for C10 at a concrete body with no `userId`. -/
theorem salvar_missing_user_defaults_anonimo_witness :
    strFalsy (some "s1") = false ∧ strFalsy (some "b1") = false ∧
    messagesCount (some ["oi"]) ≠ 0 ∧ strFalsy (none : Option String) = true ∧
    salvarHistorico true ⟨some "s1", none, some "b1", some "t0", some "t1", some ["oi"]⟩ =
      .saved ⟨"s1", "anonimo", "b1", some "t0", some "t1", ["oi"]⟩ "s1" := by
  refine ⟨rfl, rfl, by decide, rfl, ?_⟩
  have h := salvar_missing_user_defaults_anonimo
    ⟨some "s1", none, some "b1", some "t0", some "t1", some ["oi"]⟩
    rfl rfl (by decide) rfl
  simpa using h

end Server
